import Mathlib

/-!
Verification of the `command_reloader` supervisor
(`command_reloader_tool/command_reloader/reloader.py`).

The Python source is shallowly embedded as executable Lean definitions:

* strings are modelled as `List Char` (the paths and status records handled
  by `_get_snapshot`), so that Python's `strip`/`startswith`/slicing become
  directly reasoned-about list operations;
* a snapshot (`Dict[str, float]`) is an insertion-ordered association list
  with overwriting insert, matching Python `dict` assignment, and snapshot
  comparison (`dict` equality) is key-set/value equality via `snapBeq`;
* timestamps are integers (the source uses epoch floats; every property at
  stake is order-theoretic, so integer resolution is faithful);
* fallible OS calls (`git status`, `os.path.getmtime`, `os.killpg`,
  `Popen`, `wait`) are modelled by explicit result parameters
  (`Except`/`Bool`/`Option` valued), and the `try/except` structure of the
  source is mirrored in the control flow of the embedding;
* the poll loop `CommandReloader.run` becomes a per-tick step function over
  an explicit controller state, driven by a list of tick environments, each
  holding the values the tick reads from the outside world (clock, fresh
  snapshot, port-probe result, spawn success).
-/

/-- A snapshot: Python `Dict[str, float]` from `_get_snapshot`, as an
insertion-ordered association list from path to timestamp (removed
sentinel `-1`). -/
abbrev Snapshot := List (List Char × Int)

/-- Python `dict` assignment `snapshot[k] = v`: overwrite in place if the
key is present, else append at the end. -/
def snapInsert (m : Snapshot) (k : List Char) (v : Int) : Snapshot :=
  match m with
  | [] => [(k, v)]
  | (k', v') :: rest => if k' = k then (k, v) :: rest else (k', v') :: snapInsert rest k v

/-- Python `dict` lookup. -/
def snapLookup (m : Snapshot) (k : List Char) : Option Int :=
  match m with
  | [] => none
  | (k', v) :: rest => if k' = k then some v else snapLookup rest k

/-- Python `dict` equality (used by `current_snapshot != self.last_snapshot`
in `run`): same key set with the same values, insertion order irrelevant. -/
def snapBeq (a b : Snapshot) : Bool :=
  a.all (fun kv => decide (snapLookup b kv.1 = some kv.2)) &&
    b.all (fun kv => decide (snapLookup a kv.1 = some kv.2))

/-- Python `str.strip()` on a status code: drop leading and trailing
whitespace. -/
def trimChars (s : List Char) : List Char :=
  ((s.dropWhile Char.isWhitespace).reverse.dropWhile Char.isWhitespace).reverse

/-- Python `str.startswith("R")`. -/
def startsWithR (s : List Char) : Bool :=
  match s with
  | c :: _ => c = 'R'
  | [] => false

/-- The `if os.path.exists(p): snapshot[p] = os.path.getmtime(p) else:
snapshot[p] = -1` block, appearing twice in `_get_snapshot` (lines 73-76
for a rename's new path and lines 78-81 for an ordinary path).  `ex`
models `os.path.exists`, `mt` models `os.path.getmtime`; an
`Except.error` result is the `getmtime` call raising, which in the source
escapes the parse loop into the outer `except Exception: pass`, so the
caller must return the carried snapshot as the final result. -/
def pathEntry (ex : List Char → Bool) (mt : List Char → Except Unit Int)
    (p : List Char) (acc : Snapshot) : Except Snapshot Snapshot :=
  if ex p then
    match mt p with
    | Except.ok t => Except.ok (snapInsert acc p t)
    | Except.error _ => Except.error acc
  else Except.ok (snapInsert acc p (-1))

/-- Body of the `while i < len(parts)` loop of `_get_snapshot`
(reloader.py lines 52-83), carrying the snapshot built so far in `acc`.
A rename record consumes the following record as its new path when one
exists (`if i < len(parts)`); an `Except.error` from `pathEntry` aborts
the loop and yields the accumulated snapshot. -/
def getSnapshotAux (ex : List Char → Bool) (mt : List Char → Except Unit Int) :
    List (List Char) → Snapshot → Snapshot
  | [], acc => acc
  | entry :: rest, acc =>
    if entry = [] then getSnapshotAux ex mt rest acc
    else if entry.length < 3 then getSnapshotAux ex mt rest acc
    else
      if startsWithR (trimChars (entry.take 2)) then
        let acc1 := snapInsert acc ('O' :: 'L' :: 'D' :: ':' :: entry.drop 3) (-1)
        match rest with
        | [] => acc1
        | newPath :: rest2 =>
          match pathEntry ex mt newPath acc1 with
          | Except.ok acc2 => getSnapshotAux ex mt rest2 acc2
          | Except.error accF => accF
      else
        match pathEntry ex mt (entry.drop 3) acc with
        | Except.ok acc2 => getSnapshotAux ex mt rest acc2
        | Except.error accF => accF

/-- `CommandReloader._get_snapshot` (reloader.py lines 42-87).  `out` is the
result of `subprocess.check_output(["git", "status", "--porcelain", "-z"])`
already split on the NUL byte and decoded (the `errors="ignore"` decode
never raises); `Except.error` is `check_output` raising, caught by the
outer `except Exception: pass`, in which case the still-empty snapshot is
returned. -/
def getSnapshot (out : Except Unit (List (List Char)))
    (ex : List Char → Bool) (mt : List Char → Except Unit Int) : Snapshot :=
  match out with
  | Except.error _ => []
  | Except.ok parts => getSnapshotAux ex mt parts []

/-! ## Process supervisor: `stop_process` (reloader.py lines 145-159) -/

/-- Kind of exception raised by a process-control call: `ProcessLookupError`
(the already-gone case, explicitly swallowed) or any other `Exception`
(logged). -/
inductive StopErr
  | processLookup
  | other
  deriving DecidableEq

/-- World the `stop_process` call runs against: the outcome of the SIGTERM
`os.killpg` line (`none` = delivered), whether `wait(timeout=5)` sees the
child exit in time, and the outcome of the SIGKILL `os.killpg` line. -/
structure StopWorld where
  termResult : Option StopErr
  waitExits : Bool
  killResult : Option StopErr
  deriving DecidableEq

/-- Externally visible calls `stop_process` makes, in order: SIGTERM to the
process group, `wait` with its timeout in seconds, SIGKILL to the process
group. -/
inductive StopAct
  | sigtermGroup
  | waitChild (timeoutSecs : Nat)
  | sigkillGroup
  deriving DecidableEq

/-- Result of `stop_process`: the value of `self.process` afterwards (as a
liveness flag), the calls made, and whether the generic
`except Exception` branch logged an error. -/
structure StopResult where
  proc : Bool
  acts : List StopAct
  errorLogged : Bool
  deriving DecidableEq

/-- `CommandReloader.stop_process` (reloader.py lines 145-159).  `proc`
models `self.process is not None`.  The SIGTERM attempt may raise
(`ProcessLookupError` passes silently, any other exception is logged); on
success `wait(timeout=5)` either sees the exit or times out, in which case
SIGKILL is sent (whose own exceptions land in the same outer handlers).
Line 159 `self.process = None` runs after the `try/except` in every case. -/
def stopProcess (proc : Bool) (w : StopWorld) : StopResult :=
  if proc then
    match w.termResult with
    | some StopErr.processLookup => ⟨false, [StopAct.sigtermGroup], false⟩
    | some StopErr.other => ⟨false, [StopAct.sigtermGroup], true⟩
    | none =>
      if w.waitExits then
        ⟨false, [StopAct.sigtermGroup, StopAct.waitChild 5], false⟩
      else
        match w.killResult with
        | some StopErr.processLookup =>
            ⟨false, [StopAct.sigtermGroup, StopAct.waitChild 5, StopAct.sigkillGroup], false⟩
        | some StopErr.other =>
            ⟨false, [StopAct.sigtermGroup, StopAct.waitChild 5, StopAct.sigkillGroup], true⟩
        | none =>
            ⟨false, [StopAct.sigtermGroup, StopAct.waitChild 5, StopAct.sigkillGroup], false⟩
  else ⟨false, [], false⟩

/-! ## Reload controller: the poll loop of `run` (reloader.py lines 161-207) -/

/-- Configuration fixed at construction (`CommandReloader.__init__`). -/
structure Config where
  command : List Char
  interval : Int
  waitForPort : Option Nat
  onRestart : Option (List Char)
  debounceInterval : Int
  webhookUrl : Option (List Char)
  deriving DecidableEq

/-- Python truthiness of `self.wait_for_port` (lines 114 and 200): a port is
"configured" when it is present and non-zero. -/
def Config.hasPort (cfg : Config) : Bool :=
  match cfg.waitForPort with
  | some p => decide (p ≠ 0)
  | none => false

/-- `self.post_start_state`: "IDLE", "WAITING_FOR_PORT", "DONE". -/
inductive PostStart
  | idle
  | waitingForPort
  | done
  deriving DecidableEq

/-- Controller state mutated by the poll loop: `self.process is not None`,
`self.last_snapshot`, `self.pending_restart`, `self.last_change_time`,
`self.post_start_state`, `self.post_start_start_time`. -/
structure RState where
  process : Bool
  lastSnapshot : Snapshot
  pendingRestart : Bool
  lastChangeTime : Int
  postStartState : PostStart
  postStartStartTime : Int
  deriving DecidableEq

/-- What one tick reads from the world: the clock (`time.time()`), the fresh
snapshot (`self._get_snapshot()`), the port-probe result
(`self._check_port(...)`), and whether `subprocess.Popen` succeeds. -/
structure TickEnv where
  now : Int
  snapshot : Snapshot
  portOpen : Bool
  spawnOk : Bool
  deriving DecidableEq

/-- Externally visible events of one tick: the child was stopped
(`stop_process` on a live child), the child was (re)started
(`_start_main_process`), the Notifier ran (`_trigger_success_actions`,
i.e. webhook and shell hook), or the port wait timed out. -/
inductive Event
  | stopChild
  | restart
  | notify
  | portTimeout
  deriving DecidableEq

/-- Tick events contain a child (re)start. -/
def hasRestart (ev : List Event) : Bool := decide (Event.restart ∈ ev)

/-- Tick events contain a Notifier run. -/
def hasNotify (ev : List Event) : Bool := decide (Event.notify ∈ ev)

/-- Step 1, change detection (reloader.py lines 174-187): on a snapshot
difference, store the fresh snapshot, re-arm the debounce timer, set the
pending-restart flag, demote `WAITING_FOR_PORT` to `IDLE`, and stop a
running child. -/
def changePhase (s : RState) (e : TickEnv) : RState × List Event :=
  if snapBeq e.snapshot s.lastSnapshot then (s, [])
  else
    let sA : RState :=
      { s with lastSnapshot := e.snapshot, lastChangeTime := e.now, pendingRestart := true }
    let sB : RState :=
      if sA.postStartState = PostStart.waitingForPort then
        { sA with postStartState := PostStart.idle }
      else sA
    if sB.process then ({ sB with process := false }, [Event.stopChild]) else (sB, [])

/-- `CommandReloader._start_main_process` (lines 97-110): `stop_process`
first (a no-op unless a child is live), then `Popen`; on a spawn failure the
error is logged and `self.process` stays `None`. -/
def startMain (s : RState) (spawnOk : Bool) : RState × List Event :=
  ({ s with process := spawnOk },
    (if s.process then [Event.stopChild] else []) ++ [Event.restart])

/-- `CommandReloader._init_post_start_sequence` (lines 112-120): with a
configured port, enter `WAITING_FOR_PORT` recording the entry time;
otherwise run the Notifier at once and enter `DONE`. -/
def initPostStart (cfg : Config) (s : RState) (now : Int) : RState × List Event :=
  if cfg.hasPort then
    ({ s with postStartState := PostStart.waitingForPort, postStartStartTime := now }, [])
  else
    ({ s with postStartState := PostStart.done }, [Event.notify])

/-- Step 3, post-start progress (lines 200-207): while `WAITING_FOR_PORT`,
a reachable port runs the Notifier and moves to `DONE`; past the fixed
30-second timeout (`self.port_timeout`, strict `>` in the source) move to
`DONE` without the Notifier. -/
def postStartTick (s : RState) (e : TickEnv) : RState × List Event :=
  if s.postStartState = PostStart.waitingForPort then
    if e.portOpen then ({ s with postStartState := PostStart.done }, [Event.notify])
    else if 30 < e.now - s.postStartStartTime then
      ({ s with postStartState := PostStart.done }, [Event.portTimeout])
    else (s, [])
  else (s, [])

/-- One iteration of the `while True` loop (lines 170-207).  After change
detection, a pending restart whose debounce gate
(`now - last_change_time >= debounce_interval`) is still closed performs a
`continue`, skipping the post-start step for the tick; when the gate is
open the child is restarted, the post-start phase initialized, and the
post-start step runs in the same tick. -/
def step (cfg : Config) (s : RState) (e : TickEnv) : RState × List Event :=
  let c := changePhase s e
  if c.1.pendingRestart then
    if cfg.debounceInterval ≤ e.now - c.1.lastChangeTime then
      let st := startMain { c.1 with pendingRestart := false } e.spawnOk
      let ip := initPostStart cfg st.1 e.now
      let ps := postStartTick ip.1 e
      (ps.1, c.2 ++ st.2 ++ ip.2 ++ ps.2)
    else (c.1, c.2)
  else
    let ps := postStartTick c.1 e
    (ps.1, c.2 ++ ps.2)

/-- The poll loop run over a finite list of tick environments, returning the
final state and the per-tick event lists. -/
def runLoop (cfg : Config) : RState → List TickEnv → RState × List (List Event)
  | s, [] => (s, [])
  | s, e :: es =>
    let p := step cfg s e
    let q := runLoop cfg p.1 es
    (q.1, p.2 :: q.2)

/-- Controller state right after the startup lines 163-167: the initial
snapshot is stored, a restart is already pending, and the debounce timer is
back-dated by one debounce interval so the first tick fires immediately. -/
def initState (cfg : Config) (snap0 : Snapshot) (now0 : Int) : RState :=
  { process := false
    lastSnapshot := snap0
    pendingRestart := true
    lastChangeTime := now0 - cfg.debounceInterval
    postStartState := PostStart.idle
    postStartStartTime := 0 }

/-- Diagnostic printed by `_get_git_root` before `sys.exit(1)`. -/
def gitErrorMsg : String := "Error: Current directory is not part of a git repository."

/-- `CommandReloader._get_git_root` (lines 32-40): `git` models the outcome
of `subprocess.check_output(["git", "rev-parse", "--show-toplevel"])`; a
`CalledProcessError` becomes exit code 1 with the diagnostic. -/
def getGitRoot (git : Except Unit (List Char)) : Except (Nat × String) (List Char) :=
  match git with
  | Except.ok out => Except.ok (trimChars out)
  | Except.error _ => Except.error (1, gitErrorMsg)

/-- `CommandReloader.run` (lines 161-207): the startup git check, then the
initial snapshot and initial trigger, then the poll loop over the given
tick environments.  An error is a `sys.exit` with its code and message. -/
def runReloader (cfg : Config) (git : Except Unit (List Char)) (snap0 : Snapshot)
    (now0 : Int) (es : List TickEnv) : Except (Nat × String) (RState × List (List Event)) :=
  match getGitRoot git with
  | Except.error e => Except.error e
  | Except.ok _ => Except.ok (runLoop cfg (initState cfg snap0 now0) es)

/-- A burst of ticks following a change recorded at time `t` with stored
snapshot `σ`, previous tick time `p`: every tick comes later than the tick
before it and strictly less than one debounce interval after the latest
change; ticks whose snapshot differs from the stored one are further
changes of the burst (re-arming the timer at their own time). -/
def burstOk (cfg : Config) : Int → Int → Snapshot → List TickEnv → Bool
  | _, _, _, [] => true
  | p, t, σ, e :: es =>
    decide (p < e.now) && decide (e.now - t < cfg.debounceInterval) &&
      (if snapBeq e.snapshot σ then burstOk cfg e.now t σ es
       else burstOk cfg e.now e.now e.snapshot es)

/-- Latest change time and stored snapshot at the end of a burst. -/
def burstLast : Int → Snapshot → List TickEnv → Int × Snapshot
  | t, σ, [] => (t, σ)
  | t, σ, e :: es =>
    if snapBeq e.snapshot σ then burstLast t σ es else burstLast e.now e.snapshot es

/-! ## Concrete instances used by witnesses and counterexamples -/

/-- Filesystem on which no path exists. -/
def exNone : List Char → Bool := fun _ => false

/-- Filesystem on which every path exists. -/
def exAll : List Char → Bool := fun _ => true

/-- Modification-time oracle that always raises. -/
def mtNone : List Char → Except Unit Int := fun _ => Except.error ()

/-- Modification-time oracle raising exactly on path `b` (the race of a file
vanishing between the `os.path.exists` check and the `os.path.getmtime`
call), returning timestamp 5 elsewhere. -/
def mtSome : List Char → Except Unit Int :=
  fun p => if p = ['b'] then Except.error () else Except.ok 5

/-- Modification-time oracle that always answers 7. -/
def mtSeven : List Char → Except Unit Int := fun _ => Except.ok 7

/-! ## Helper lemmas -/

/-- A string starting with the non-whitespace character `R` still starts
with `R` after `strip()`. -/
theorem trim_startsWithR (s : List Char) (h : startsWithR s = true) :
    startsWithR (trimChars s) = true := by
  match s with
  | c :: rest =>
    have hc : c = 'R' := by
      simpa [startsWithR] using h
    subst hc
    unfold trimChars
    have hws : 'R'.isWhitespace = false := by decide
    rw [List.dropWhile_cons, hws]
    simp only [Bool.false_eq_true, if_false]
    rw [show ('R' :: rest).reverse = rest.reverse ++ ['R'] by simp,
      List.dropWhile_append]
    by_cases he : (rest.reverse.dropWhile Char.isWhitespace).isEmpty = true
    · rw [if_pos he]
      simp [List.dropWhile_cons, hws, startsWithR]
    · rw [if_neg he]
      simp [startsWithR]

/-- Running the loop over concatenated tick lists composes. -/
theorem runLoop_append (cfg : Config) (s : RState) (as bs : List TickEnv) :
    runLoop cfg s (as ++ bs)
      = ((runLoop cfg (runLoop cfg s as).1 bs).1,
         (runLoop cfg s as).2 ++ (runLoop cfg (runLoop cfg s as).1 bs).2) := by
  induction as generalizing s with
  | nil => simp [runLoop]
  | cons e as ih => simp [runLoop, ih]

/-- Unfolding one tick of the loop. -/
theorem runLoop_cons (cfg : Config) (s : RState) (e : TickEnv) (es : List TickEnv) :
    runLoop cfg s (e :: es)
      = ((runLoop cfg (step cfg s e).1 es).1,
         (step cfg s e).2 :: (runLoop cfg (step cfg s e).1 es).2) := rfl

/-- The post-start step never restarts the child and leaves the debounce
state, the stored snapshot, the process flag and the change timestamp
untouched. -/
theorem postStartTick_facts (s : RState) (e : TickEnv) :
    (postStartTick s e).1.pendingRestart = s.pendingRestart ∧
    (postStartTick s e).1.lastSnapshot = s.lastSnapshot ∧
    (postStartTick s e).1.process = s.process ∧
    (postStartTick s e).1.lastChangeTime = s.lastChangeTime ∧
    hasRestart (postStartTick s e).2 = false := by
  unfold postStartTick
  split_ifs <;> simp [hasRestart]

/-- A tick with no snapshot change while a restart is pending and the
debounce gate is closed does nothing at all (the `continue` branch). -/
theorem step_quiet_closed (cfg : Config) (s : RState) (e : TickEnv)
    (hq : snapBeq e.snapshot s.lastSnapshot = true)
    (hp : s.pendingRestart = true)
    (hg : e.now - s.lastChangeTime < cfg.debounceInterval) :
    step cfg s e = (s, []) := by
  have hg' : ¬ cfg.debounceInterval ≤ e.now - s.lastChangeTime := by omega
  simp [step, changePhase, hq, hp, hg']

/-- A tick with a snapshot change, with a strictly positive debounce
interval: the state is re-armed at the tick's time, a running child is
stopped, `WAITING_FOR_PORT` is demoted to `IDLE`, and nothing else happens
(the gate, freshly re-armed, is closed). -/
theorem step_change_any (cfg : Config) (hd : 0 < cfg.debounceInterval)
    (s : RState) (e : TickEnv) (hq : snapBeq e.snapshot s.lastSnapshot = false) :
    step cfg s e
      = (⟨false, e.snapshot, true, e.now,
          (if s.postStartState = PostStart.waitingForPort then PostStart.idle
           else s.postStartState),
          s.postStartStartTime⟩,
         if s.process then [Event.stopChild] else []) := by
  have hg' : ¬ cfg.debounceInterval ≤ e.now - e.now := by omega
  have hg0 : ¬ cfg.debounceInterval ≤ (0 : Int) := by omega
  by_cases hps : s.postStartState = PostStart.waitingForPort <;>
    by_cases hpr : s.process <;>
      simp [step, changePhase, hq, hg', hg0, hps, hpr]

/-- A tick with no change and no pending restart is exactly the post-start
step. -/
theorem step_idle_quiet (cfg : Config) (s : RState) (e : TickEnv)
    (hq : snapBeq e.snapshot s.lastSnapshot = true)
    (hp : s.pendingRestart = false) :
    step cfg s e = postStartTick s e := by
  simp [step, changePhase, hq, hp]

/-- A tick with no change, a pending restart and an open debounce gate
restarts the child: the tick's events contain the restart, the pending
flag is cleared and the stored snapshot is kept. -/
theorem step_fire_facts (cfg : Config) (s : RState) (e : TickEnv)
    (hq : snapBeq e.snapshot s.lastSnapshot = true)
    (hp : s.pendingRestart = true)
    (hg : cfg.debounceInterval ≤ e.now - s.lastChangeTime) :
    hasRestart (step cfg s e).2 = true ∧
    (step cfg s e).1.pendingRestart = false ∧
    (step cfg s e).1.lastSnapshot = s.lastSnapshot := by
  by_cases hport : cfg.hasPort <;>
    by_cases hopen : e.portOpen <;>
      by_cases hpr : s.process <;>
        simp [step, changePhase, startMain, initPostStart, postStartTick,
          hasRestart, hq, hp, hg, hport, hopen, hpr]

/-- During a burst — every tick strictly less than one debounce interval
after the latest change — the loop only re-arms the timer and re-stores the
changing snapshot: no tick produces any event, and the final state carries
the last change's time and snapshot. -/
theorem burst_run (cfg : Config) (hd : 0 < cfg.debounceInterval) :
    ∀ (es : List TickEnv) (p t : Int) (σ : Snapshot) (ps : PostStart) (pt : Int),
      ps ≠ PostStart.waitingForPort →
      burstOk cfg p t σ es = true →
      runLoop cfg ⟨false, σ, true, t, ps, pt⟩ es
        = (⟨false, (burstLast t σ es).2, true, (burstLast t σ es).1, ps, pt⟩,
           List.replicate es.length [])
  | [], p, t, σ, ps, pt, hps, hb => by simp [runLoop, burstLast]
  | e :: es, p, t, σ, ps, pt, hps, hb => by
    rw [burstOk] at hb
    rw [Bool.and_assoc, Bool.and_eq_true, Bool.and_eq_true] at hb
    obtain ⟨h1, h2, h3⟩ := hb
    rw [decide_eq_true_iff] at h2
    by_cases hq : snapBeq e.snapshot σ = true
    · rw [if_pos hq] at h3
      rw [runLoop_cons, step_quiet_closed cfg ⟨false, σ, true, t, ps, pt⟩ e hq rfl h2,
        burst_run cfg hd es e.now t σ ps pt hps h3]
      simp [burstLast, hq, List.replicate_succ]
    · rw [Bool.not_eq_true] at hq
      rw [if_neg (by simp [hq])] at h3
      rw [runLoop_cons,
        step_change_any cfg hd ⟨false, σ, true, t, ps, pt⟩ e (by simpa using hq)]
      simp only [if_neg hps]
      rw [burst_run cfg hd es e.now e.now e.snapshot ps pt hps h3]
      simp [burstLast, hq, List.replicate_succ]

/-- With no pending restart and no snapshot change, no tick ever restarts
the child, and the debounce state and stored snapshot are preserved. -/
theorem settled_run (cfg : Config) :
    ∀ (es : List TickEnv) (s : RState), s.pendingRestart = false →
      (∀ e ∈ es, snapBeq e.snapshot s.lastSnapshot = true) →
      (runLoop cfg s es).2.map hasRestart = List.replicate es.length false ∧
      (runLoop cfg s es).1.pendingRestart = false ∧
      (runLoop cfg s es).1.lastSnapshot = s.lastSnapshot
  | [], s, hp, hq => by simp [runLoop, hp]
  | e :: es, s, hp, hq => by
    have hqe : snapBeq e.snapshot s.lastSnapshot = true := hq e (by simp)
    rw [runLoop_cons, step_idle_quiet cfg s e hqe hp]
    obtain ⟨f1, f2, f3, f4, f5⟩ := postStartTick_facts s e
    have ih := settled_run cfg es (postStartTick s e).1 (by rw [f1, hp])
      (by intro x hx; rw [f2]; exact hq x (by simp [hx]))
    obtain ⟨i1, i2, i3⟩ := ih
    refine ⟨?_, ?_, ?_⟩
    · simp [i1, f5, List.replicate_succ]
    · exact i2
    · rw [i3, f2]

/-- While `WAITING_FOR_PORT` with the probe failing and the timeout not yet
elapsed, and with no change and no pending restart, ticks do nothing at
all. -/
theorem waiting_hold (cfg : Config) :
    ∀ (es : List TickEnv) (proc : Bool) (σ : Snapshot) (tc t0 : Int),
      (∀ e ∈ es, snapBeq e.snapshot σ = true ∧ e.portOpen = false ∧ e.now - t0 ≤ 30) →
      runLoop cfg ⟨proc, σ, false, tc, PostStart.waitingForPort, t0⟩ es
        = (⟨proc, σ, false, tc, PostStart.waitingForPort, t0⟩, List.replicate es.length [])
  | [], proc, σ, tc, t0, h => by simp [runLoop]
  | e :: es, proc, σ, tc, t0, h => by
    obtain ⟨hqe, hpe, hte⟩ := h e (by simp)
    have hstep : step cfg ⟨proc, σ, false, tc, PostStart.waitingForPort, t0⟩ e
        = (⟨proc, σ, false, tc, PostStart.waitingForPort, t0⟩, []) := by
      rw [step_idle_quiet cfg _ e hqe rfl]
      have h30 : ¬ (30 : Int) < e.now - t0 := by omega
      simp [postStartTick, hpe, h30]
    rw [runLoop_cons, hstep, waiting_hold cfg es proc σ tc t0
      (by intro x hx; exact h x (by simp [hx]))]
    simp [List.replicate_succ]

/-- In the `DONE` phase with no change and no pending restart, ticks do
nothing at all. -/
theorem done_hold (cfg : Config) :
    ∀ (es : List TickEnv) (proc : Bool) (σ : Snapshot) (tc t0 : Int),
      (∀ e ∈ es, snapBeq e.snapshot σ = true) →
      runLoop cfg ⟨proc, σ, false, tc, PostStart.done, t0⟩ es
        = (⟨proc, σ, false, tc, PostStart.done, t0⟩, List.replicate es.length [])
  | [], proc, σ, tc, t0, h => by simp [runLoop]
  | e :: es, proc, σ, tc, t0, h => by
    have hqe := h e (by simp)
    have hstep : step cfg ⟨proc, σ, false, tc, PostStart.done, t0⟩ e
        = (⟨proc, σ, false, tc, PostStart.done, t0⟩, []) := by
      rw [step_idle_quiet cfg _ e hqe rfl]
      simp [postStartTick]
    rw [runLoop_cons, hstep, done_hold cfg es proc σ tc t0
      (by intro x hx; exact h x (by simp [hx]))]
    simp [List.replicate_succ]

/-! ## Claim theorems -/

/-- C8: if at startup the working directory is not inside a git tree, `run`
exits with code 1 and the diagnostic before any polling (the same error
results whatever tick environments would have followed, and no loop output
exists); and the check is startup-only: on success the whole loop is the
git-independent `runLoop` applied to the initial state, so the check can
never be consulted again during polling. -/
theorem c8_git_check_fatal_once (cfg : Config) (snap0 : Snapshot) (now0 : Int)
    (es : List TickEnv) (r : List Char) :
    runReloader cfg (Except.error ()) snap0 now0 es = Except.error (1, gitErrorMsg) ∧
    runReloader cfg (Except.ok r) snap0 now0 es
      = Except.ok (runLoop cfg (initState cfg snap0 now0) es) :=
  ⟨rfl, rfl⟩

/-- C9: whatever the world does to the signalling and waiting calls —
including failures other than the already-gone case — `stop_process`
always returns with the stored handle cleared, so the child is treated as
stopped from then on. -/
theorem c9_stop_always_clears (p : Bool) (w : StopWorld) :
    (stopProcess p w).proc = false := by
  rcases w with ⟨tr, we, kr⟩
  cases p <;> cases we <;>
    rcases tr with _ | (_ | _) <;>
      rcases kr with _ | (_ | _) <;> rfl

/-- C10: a record that is empty, or whose decoded text is shorter than 3
characters, is skipped: it contributes no snapshot entry and the parse
continues with the remaining records. -/
theorem c10_short_records_skipped (ex : List Char → Bool)
    (mt : List Char → Except Unit Int) (entry : List Char)
    (rest : List (List Char)) (acc : Snapshot)
    (h : entry = [] ∨ entry.length < 3) :
    getSnapshotAux ex mt (entry :: rest) acc = getSnapshotAux ex mt rest acc := by
  by_cases he : entry = []
  · subst he
    simp [getSnapshotAux]
  · have hl : entry.length < 3 := by
      rcases h with h | h
      · exact absurd h he
      · exact h
    simp only [getSnapshotAux]
    rw [if_neg he, if_pos hl]

/-- C10 witness: a one-character record is skipped. -/
theorem c10_witness :
    ((['M'] : List Char) = [] ∨ (['M'] : List Char).length < 3) ∧
    getSnapshotAux exNone mtNone [['M']] [] = getSnapshotAux exNone mtNone [] [] :=
  ⟨by decide, c10_short_records_skipped exNone mtNone ['M'] [] [] (by decide)⟩

/-- C7: `stop_process` on a live child first sends the graceful SIGTERM to
the process group; when that is delivered and the child does not exit
within the 5-second wait, it escalates to SIGKILL on the group; when the
child exits in time no kill is sent; an already-gone
(`ProcessLookupError`) failure is swallowed without logging; and with no
child the call is a no-op, so a repeated stop (idempotence) is also a
no-op. -/
theorem c7_stop_contract (w w' : StopWorld) :
    stopProcess false w = ⟨false, [], false⟩ ∧
    (stopProcess true w).acts.head? = some StopAct.sigtermGroup ∧
    (w.termResult = none → w.waitExits = true →
      (stopProcess true w).acts = [StopAct.sigtermGroup, StopAct.waitChild 5]) ∧
    (w.termResult = none → w.waitExits = false →
      (stopProcess true w).acts
        = [StopAct.sigtermGroup, StopAct.waitChild 5, StopAct.sigkillGroup]) ∧
    (w.termResult = some StopErr.processLookup →
      (stopProcess true w).errorLogged = false) ∧
    stopProcess (stopProcess true w).proc w' = ⟨false, [], false⟩ := by
  rcases w with ⟨tr, we, kr⟩
  refine ⟨rfl, ?_, ?_, ?_, ?_, ?_⟩
  · rcases tr with _ | (_ | _) <;> cases we <;>
      rcases kr with _ | (_ | _) <;> rfl
  · intro h1 h2
    cases h1; cases h2; rfl
  · intro h1 h2
    cases h1; cases h2
    rcases kr with _ | (_ | _) <;> rfl
  · intro h1
    cases h1; rfl
  · rcases tr with _ | (_ | _) <;> cases we <;>
      rcases kr with _ | (_ | _) <;> rfl

/-- C7 witness: a delivered SIGTERM with the child refusing to exit leads
to the full graceful-then-forceful sequence, and stop is idempotent. -/
theorem c7_stop_contract_witness :
    (stopProcess true ⟨none, false, none⟩).acts
      = [StopAct.sigtermGroup, StopAct.waitChild 5, StopAct.sigkillGroup] ∧
    stopProcess (stopProcess true ⟨none, false, none⟩).proc ⟨none, false, none⟩
      = ⟨false, [], false⟩ :=
  ⟨(c7_stop_contract ⟨none, false, none⟩ ⟨none, false, none⟩).2.2.2.1 rfl rfl,
   (c7_stop_contract ⟨none, false, none⟩ ⟨none, false, none⟩).2.2.2.2.2⟩

/-- C2 counterexample: for the rename record `R  a` followed by the new
path `b` (absent on disk), the snapshot has NO entry keyed by the old path
`a`; the removed-sentinel entry is keyed by `OLD:a` instead, so the claim
that the first entry is keyed by the old path fails on this input. -/
theorem c2_rename_counterexample :
    snapLookup (getSnapshot (Except.ok [['R', ' ', ' ', 'a'], ['b']]) exNone mtNone)
      ['a'] = none ∧
    snapLookup (getSnapshot (Except.ok [['R', ' ', ' ', 'a'], ['b']]) exNone mtNone)
      ['O', 'L', 'D', ':', 'a'] = some (-1) ∧
    snapLookup (getSnapshot (Except.ok [['R', ' ', ' ', 'a'], ['b']]) exNone mtNone)
      ['b'] = some (-1) := by
  refine ⟨?_, ?_, ?_⟩ <;> rfl

/-- C2 (amended): a status record whose two-character status code begins
with the rename marker `R` consumes two consecutive records and produces
exactly two snapshot entries: one keyed by the old path prefixed with the
marker `OLD:` carrying the removed sentinel `-1`, and one keyed by the new
path carrying its modification time when it exists on disk and the removed
sentinel `-1` when it does not. -/
theorem c2_rename_two_entries (ex : List Char → Bool)
    (mt : List Char → Except Unit Int) (entry newPath : List Char)
    (rest : List (List Char)) (acc : Snapshot) (tN : Int)
    (hlen : ¬ entry.length < 3)
    (hR : startsWithR (entry.take 2) = true)
    (hmt : mt newPath = Except.ok tN) :
    getSnapshotAux ex mt (entry :: newPath :: rest) acc
      = getSnapshotAux ex mt rest
          (snapInsert (snapInsert acc ('O' :: 'L' :: 'D' :: ':' :: entry.drop 3) (-1))
            newPath (if ex newPath then tN else -1)) := by
  have hne : ¬ entry = [] := by
    intro h
    subst h
    simp at hlen
  have hRt : startsWithR (trimChars (entry.take 2)) = true :=
    trim_startsWithR _ hR
  simp only [getSnapshotAux]
  rw [if_neg hne, if_neg hlen, if_pos hRt]
  by_cases hx : ex newPath
  · rw [if_pos hx]
    simp [pathEntry, hx, hmt]
  · rw [if_neg hx]
    simp [pathEntry, hx]

/-- C2 witness: the record `R  a` followed by new path `b`, absent on
disk, yields the `OLD:a` removed entry and the removed entry for `b`. -/
theorem c2_rename_two_entries_witness :
    (¬ (['R', ' ', ' ', 'a'] : List Char).length < 3) ∧
    startsWithR ((['R', ' ', ' ', 'a'] : List Char).take 2) = true ∧
    getSnapshotAux exNone mtSeven [['R', ' ', ' ', 'a'], ['b']] []
      = getSnapshotAux exNone mtSeven []
          (snapInsert (snapInsert [] ['O', 'L', 'D', ':', 'a'] (-1)) ['b']
            (if exNone ['b'] then 7 else -1)) :=
  ⟨by decide, by decide,
    c2_rename_two_entries exNone mtSeven ['R', ' ', ' ', 'a'] ['b'] [] [] 7
      (by decide) (by decide) rfl⟩

/-- C6 counterexample: with records `M  a` and `M  b` and a `getmtime`
oracle that raises exactly on `b` (the file vanishing between the
existence check and the timestamp read), the snapshot function returns the
partial mapping `a mapped to 5` — a non-empty result despite an error
arising during the parse, refuting "on any error ... it returns an empty
mapping ... rather than a partial result". -/
theorem c6_partial_counterexample :
    mtSome ['b'] = Except.error () ∧
    getSnapshot (Except.ok [['M', ' ', ' ', 'a'], ['M', ' ', ' ', 'b']]) exAll mtSome
      = [(['a'], 5)] ∧
    getSnapshot (Except.ok [['M', ' ', ' ', 'a'], ['M', ' ', ' ', 'b']]) exAll mtSome
      ≠ [] := by
  refine ⟨rfl, rfl, ?_⟩
  decide

/-- C6 (amended): the snapshot function never raises to its caller; when
the status query itself fails it returns the empty mapping (no entry was
recorded yet), and when an error arises later, during the parse, it
returns the snapshot accumulated so far rather than propagating — for a
non-rename record whose path exists but whose modification-time read
raises, the accumulated snapshot is the final result. -/
theorem c6_error_soft_fail (ex : List Char → Bool)
    (mt : List Char → Except Unit Int) (entry : List Char)
    (rest : List (List Char)) (acc : Snapshot)
    (hlen : ¬ entry.length < 3)
    (hnR : startsWithR (trimChars (entry.take 2)) = false)
    (hex : ex (entry.drop 3) = true)
    (herr : mt (entry.drop 3) = Except.error ()) :
    getSnapshot (Except.error ()) ex mt = [] ∧
    getSnapshotAux ex mt (entry :: rest) acc = acc := by
  have hne : ¬ entry = [] := by
    intro h
    subst h
    simp at hlen
  refine ⟨rfl, ?_⟩
  simp only [getSnapshotAux]
  rw [if_neg hne, if_neg hlen, if_neg (by simp [hnR])]
  simp [pathEntry, hex, herr]

/-- C6 witness: the record `M  b` whose path exists but whose timestamp
read raises, starting from a one-entry accumulated snapshot, returns that
accumulated snapshot. -/
theorem c6_error_soft_fail_witness :
    exAll ((['M', ' ', ' ', 'b'] : List Char).drop 3) = true ∧
    mtSome ((['M', ' ', ' ', 'b'] : List Char).drop 3) = Except.error () ∧
    getSnapshot (Except.error ()) exAll mtSome = [] ∧
    getSnapshotAux exAll mtSome [['M', ' ', ' ', 'b'], ['M', ' ', ' ', 'c']]
      [(['a'], 5)] = [(['a'], 5)] :=
  ⟨rfl, rfl,
    (c6_error_soft_fail exAll mtSome ['M', ' ', ' ', 'b'] [['M', ' ', ' ', 'c']]
      [(['a'], 5)] (by decide) (by decide) rfl rfl).1,
    (c6_error_soft_fail exAll mtSome ['M', ' ', ' ', 'b'] [['M', ' ', ' ', 'c']]
      [(['a'], 5)] (by decide) (by decide) rfl rfl).2⟩

/-- C4: when no target port is configured, any tick whose events contain a
child (re)start has exactly the events "optional stop of the old child,
restart, Notifier run" — the Notifier runs exactly once, immediately after
the child start, within the same tick — and the post-start phase is `DONE`
at the end of that tick. -/
theorem c4_no_port_notify_once (cfg : Config) (s : RState) (e : TickEnv)
    (hnp : cfg.hasPort = false)
    (hfire : Event.restart ∈ (step cfg s e).2) :
    (step cfg s e).1.postStartState = PostStart.done ∧
    (step cfg s e).2
      = (if s.process then [Event.stopChild] else []) ++ [Event.restart, Event.notify] := by
  by_cases hq : snapBeq e.snapshot s.lastSnapshot = true
  · by_cases hp : s.pendingRestart = true
    · by_cases hg : cfg.debounceInterval ≤ e.now - s.lastChangeTime
      · constructor <;>
          simp [step, changePhase, startMain, initPostStart, postStartTick,
            hq, hp, hg, hnp]
      · exfalso
        rw [step_quiet_closed cfg s e hq hp (by omega)] at hfire
        simp at hfire
    · exfalso
      rw [Bool.not_eq_true] at hp
      rw [step_idle_quiet cfg s e hq hp] at hfire
      have := (postStartTick_facts s e).2.2.2.2
      rw [hasRestart, decide_eq_false_iff_not] at this
      exact this hfire
  · rw [Bool.not_eq_true] at hq
    by_cases hg : cfg.debounceInterval ≤ (0 : Int)
    · have hg2 : cfg.debounceInterval ≤ e.now - e.now := by omega
      by_cases hps : s.postStartState = PostStart.waitingForPort <;>
        by_cases hpr : s.process <;>
          constructor <;>
            simp [step, changePhase, startMain, initPostStart, postStartTick,
              hq, hg, hg2, hnp, hps, hpr]
    · exfalso
      rw [step_change_any cfg (by omega) s e hq] at hfire
      revert hfire
      split <;> simp

/-- C4 witness: with no port configured, a restart tick (pending restart,
gate open, no child running) emits exactly the restart followed by the
Notifier and ends the tick in `DONE`. -/
theorem c4_no_port_notify_once_witness :
    (step ⟨[], 1, none, none, 2, none⟩ ⟨false, [], true, 0, PostStart.idle, 0⟩
        ⟨5, [], false, true⟩).1.postStartState = PostStart.done ∧
    (step ⟨[], 1, none, none, 2, none⟩ ⟨false, [], true, 0, PostStart.idle, 0⟩
        ⟨5, [], false, true⟩).2 = [Event.restart, Event.notify] :=
  c4_no_port_notify_once ⟨[], 1, none, none, 2, none⟩
    ⟨false, [], true, 0, PostStart.idle, 0⟩ ⟨5, [], false, true⟩
    (by decide) (by decide)

/-- C5: on a tick whose fresh snapshot differs from the stored one, a
running child is stopped as the very first event of the tick — before the
debounce gate can act, hence before any restart; and with a strictly
positive debounce interval the whole tick consists of that unconditional
stop: the child is left stopped, the restart is (re-)armed at the tick's
time, `WAITING_FOR_PORT` is demoted to `IDLE`, and no restart happens. -/
theorem c5_change_stops_first (cfg : Config) (s : RState) (e : TickEnv)
    (hchg : snapBeq e.snapshot s.lastSnapshot = false) :
    (s.process = true → (step cfg s e).2.head? = some Event.stopChild) ∧
    (0 < cfg.debounceInterval →
      (step cfg s e).1.process = false ∧
      (step cfg s e).1.pendingRestart = true ∧
      (step cfg s e).1.lastChangeTime = e.now ∧
      (step cfg s e).1.postStartState
        = (if s.postStartState = PostStart.waitingForPort then PostStart.idle
           else s.postStartState) ∧
      (step cfg s e).2 = (if s.process then [Event.stopChild] else []) ∧
      hasRestart (step cfg s e).2 = false) := by
  constructor
  · intro hpr
    by_cases hg : cfg.debounceInterval ≤ (0 : Int)
    · have hg2 : cfg.debounceInterval ≤ e.now - e.now := by omega
      by_cases hps : s.postStartState = PostStart.waitingForPort <;>
        by_cases hport : cfg.hasPort <;>
          simp [step, changePhase, startMain, initPostStart, postStartTick,
            hchg, hg, hg2, hps, hport, hpr]
    · rw [step_change_any cfg (by omega) s e hchg]
      simp [hpr]
  · intro hd
    rw [step_change_any cfg hd s e hchg]
    refine ⟨rfl, rfl, rfl, rfl, rfl, ?_⟩
    by_cases hpr : s.process <;> simp [hasRestart, hpr]

/-- C5 witness: a change tick with a live child and an in-flight port wait
stops the child first and only, re-arms the timer, and demotes the wait to
`IDLE`. -/
theorem c5_change_stops_first_witness :
    (step ⟨[], 1, none, none, 2, none⟩
        ⟨true, [], false, 0, PostStart.waitingForPort, 0⟩
        ⟨5, [(['a'], 1)], false, true⟩).2.head? = some Event.stopChild ∧
    (step ⟨[], 1, none, none, 2, none⟩
        ⟨true, [], false, 0, PostStart.waitingForPort, 0⟩
        ⟨5, [(['a'], 1)], false, true⟩).1.process = false ∧
    (step ⟨[], 1, none, none, 2, none⟩
        ⟨true, [], false, 0, PostStart.waitingForPort, 0⟩
        ⟨5, [(['a'], 1)], false, true⟩).1.postStartState = PostStart.idle ∧
    hasRestart (step ⟨[], 1, none, none, 2, none⟩
        ⟨true, [], false, 0, PostStart.waitingForPort, 0⟩
        ⟨5, [(['a'], 1)], false, true⟩).2 = false :=
  ⟨(c5_change_stops_first ⟨[], 1, none, none, 2, none⟩
      ⟨true, [], false, 0, PostStart.waitingForPort, 0⟩
      ⟨5, [(['a'], 1)], false, true⟩ (by decide)).1 rfl,
   ((c5_change_stops_first ⟨[], 1, none, none, 2, none⟩
      ⟨true, [], false, 0, PostStart.waitingForPort, 0⟩
      ⟨5, [(['a'], 1)], false, true⟩ (by decide)).2 (by decide)).1,
   ((c5_change_stops_first ⟨[], 1, none, none, 2, none⟩
      ⟨true, [], false, 0, PostStart.waitingForPort, 0⟩
      ⟨5, [(['a'], 1)], false, true⟩ (by decide)).2 (by decide)).2.2.2.1,
   ((c5_change_stops_first ⟨[], 1, none, none, 2, none⟩
      ⟨true, [], false, 0, PostStart.waitingForPort, 0⟩
      ⟨5, [(['a'], 1)], false, true⟩ (by decide)).2 (by decide)).2.2.2.2.2⟩

/-- C3: starting a readiness wait entered at time `t0`, if every following
tick's probe reports the port unreachable (and no change interrupts), the
Notifier never runs over the whole run, the phase is still
`WAITING_FOR_PORT` through every tick at most 30 seconds after `t0`, and
it transitions to `DONE` exactly on the first tick strictly beyond the
30-second timeout — hence at or after 30 seconds from entering the
phase. -/
theorem c3_port_timeout_no_notify (cfg : Config) (σ : Snapshot) (tc t0 : Int)
    (proc : Bool) (es1 es2 : List TickEnv) (eT : TickEnv)
    (h1 : ∀ e ∈ es1, snapBeq e.snapshot σ = true ∧ e.portOpen = false ∧ e.now - t0 ≤ 30)
    (hTq : snapBeq eT.snapshot σ = true) (hTp : eT.portOpen = false)
    (hTt : 30 < eT.now - t0)
    (h2 : ∀ e ∈ es2, snapBeq e.snapshot σ = true ∧ e.portOpen = false) :
    (runLoop cfg ⟨proc, σ, false, tc, PostStart.waitingForPort, t0⟩
        (es1 ++ eT :: es2)).2.map hasNotify
      = List.replicate (es1.length + (es2.length + 1)) false ∧
    (runLoop cfg ⟨proc, σ, false, tc, PostStart.waitingForPort, t0⟩ es1).1
      = ⟨proc, σ, false, tc, PostStart.waitingForPort, t0⟩ ∧
    (runLoop cfg ⟨proc, σ, false, tc, PostStart.waitingForPort, t0⟩
        (es1 ++ [eT])).1.postStartState = PostStart.done ∧
    30 ≤ eT.now - t0 := by
  have hold := waiting_hold cfg es1 proc σ tc t0 h1
  have stepT : step cfg ⟨proc, σ, false, tc, PostStart.waitingForPort, t0⟩ eT
      = (⟨proc, σ, false, tc, PostStart.done, t0⟩, [Event.portTimeout]) := by
    rw [step_idle_quiet cfg _ eT hTq rfl]
    simp [postStartTick, hTp, hTt]
  have done2 := done_hold cfg es2 proc σ tc t0 (fun e he => (h2 e he).1)
  refine ⟨?_, ?_, ?_, by omega⟩
  · rw [runLoop_append, hold]
    rw [runLoop_cons, stepT]
    simp only [done2]
    simp [hasNotify, List.map_replicate, List.replicate_add, List.replicate_succ]
  · rw [hold]
  · rw [runLoop_append, hold, runLoop_cons, stepT]
    simp [runLoop]

/-- C3 witness: with the probe always failing, a tick at 10 seconds keeps
waiting, the tick at 31 seconds times out into `DONE`, and no tick of the
run ever fires the Notifier. -/
theorem c3_port_timeout_no_notify_witness :
    (runLoop ⟨[], 1, some 8000, none, 2, none⟩
        ⟨true, [], false, 0, PostStart.waitingForPort, 0⟩
        ([⟨10, [], false, true⟩] ++ ⟨31, [], false, true⟩ :: [⟨40, [], false, true⟩])).2.map
        hasNotify = [false, false, false] ∧
    (runLoop ⟨[], 1, some 8000, none, 2, none⟩
        ⟨true, [], false, 0, PostStart.waitingForPort, 0⟩
        [⟨10, [], false, true⟩]).1
      = ⟨true, [], false, 0, PostStart.waitingForPort, 0⟩ ∧
    (runLoop ⟨[], 1, some 8000, none, 2, none⟩
        ⟨true, [], false, 0, PostStart.waitingForPort, 0⟩
        ([⟨10, [], false, true⟩] ++ [⟨31, [], false, true⟩])).1.postStartState
      = PostStart.done ∧
    (30 : Int) ≤ (31 : Int) - 0 :=
  c3_port_timeout_no_notify ⟨[], 1, some 8000, none, 2, none⟩ [] 0 0 true
    [⟨10, [], false, true⟩] [⟨40, [], false, true⟩] ⟨31, [], false, true⟩
    (by decide) (by decide) (by decide) (by decide) (by decide)

/-- C1: from a settled state, a burst opened by a change tick `e0` and
continued by ticks `es` — every change strictly less than one debounce
interval after the previous one, every tick before the (re-armed)
deadline — followed by the first tick `ef` at which
`now - LastChangeTimestamp >= debounceInterval`, and then quiet ticks:
exactly one restart occurs, on `ef`, i.e. one debounce interval after the
last change of the burst; no tick of the burst and no later tick
restarts. -/
theorem c1_debounce_single_restart (cfg : Config) (hd : 0 < cfg.debounceInterval)
    (s : RState) (_hp : s.pendingRestart = false)
    (e0 : TickEnv) (h0 : snapBeq e0.snapshot s.lastSnapshot = false)
    (es : List TickEnv) (hb : burstOk cfg e0.now e0.now e0.snapshot es = true)
    (ef : TickEnv)
    (hfq : snapBeq ef.snapshot (burstLast e0.now e0.snapshot es).2 = true)
    (hfg : cfg.debounceInterval ≤ ef.now - (burstLast e0.now e0.snapshot es).1)
    (rest : List TickEnv)
    (hr : ∀ e ∈ rest, snapBeq e.snapshot (burstLast e0.now e0.snapshot es).2 = true) :
    (runLoop cfg s (e0 :: es ++ ef :: rest)).2.map hasRestart
      = List.replicate (es.length + 1) false ++ true :: List.replicate rest.length false := by
  have he0 := step_change_any cfg hd s e0 h0
  have hps'ne : (if s.postStartState = PostStart.waitingForPort then PostStart.idle
      else s.postStartState) ≠ PostStart.waitingForPort := by
    split
    · intro h
      cases h
    · assumption
  have hbr := burst_run cfg hd es e0.now e0.now e0.snapshot
    (if s.postStartState = PostStart.waitingForPort then PostStart.idle
     else s.postStartState) s.postStartStartTime hps'ne hb
  have hfacts := step_fire_facts cfg
    ⟨false, (burstLast e0.now e0.snapshot es).2, true, (burstLast e0.now e0.snapshot es).1,
      (if s.postStartState = PostStart.waitingForPort then PostStart.idle
       else s.postStartState), s.postStartStartTime⟩ ef hfq rfl hfg
  obtain ⟨hf1, hf2, hf3⟩ := hfacts
  have hrest := settled_run cfg rest _ hf2 (by
    intro x hx
    rw [hf3]
    exact hr x hx)
  rw [List.cons_append, runLoop_cons, he0, runLoop_append, hbr, runLoop_cons]
  by_cases hpr : s.process <;>
    simp [hasRestart, hpr, List.map_append, List.map_replicate, hf1,
      List.replicate_succ, hrest.1] <;>
      simpa [hasRestart] using hf1

/-- C1 witness: debounce interval 2; a change at time 10 followed by a
second change at time 11 (less than one interval later); the tick at 13
(= 11 + 2) restarts; the tick at 14 does not: exactly one restart, one
debounce interval after the last change. -/
theorem c1_debounce_single_restart_witness :
    (runLoop ⟨[], 1, none, none, 2, none⟩ ⟨false, [], false, 0, PostStart.done, 0⟩
        (⟨10, [(['a'], 1)], false, true⟩ :: [⟨11, [(['a'], 2)], false, true⟩]
          ++ ⟨13, [(['a'], 2)], false, true⟩ :: [⟨14, [(['a'], 2)], false, true⟩])).2.map
      hasRestart = [false, false, true, false] :=
  c1_debounce_single_restart ⟨[], 1, none, none, 2, none⟩ (by decide)
    ⟨false, [], false, 0, PostStart.done, 0⟩ (by decide)
    ⟨10, [(['a'], 1)], false, true⟩ (by decide)
    [⟨11, [(['a'], 2)], false, true⟩] (by decide)
    ⟨13, [(['a'], 2)], false, true⟩ (by decide) (by decide)
    [⟨14, [(['a'], 2)], false, true⟩] (by decide)
